import Mathlib

/-!
# JumpSim: shallow embedding and verification

A shallow embedding in Lean 4 of the core of the JumpSim agent-based
market-shock simulator (C sources: `src/core/agent.c`, `src/core/market.c`,
`src/shocks/news.c`, `src/shocks/information_flow.c`), together with
theorems settling the specification claims about it.

Modelling conventions:
* C `double` values are modelled as exact rationals (`ℚ`); decimal literals
  in the C source (`1e-6`, `0.5`, `0.002`, ...) are taken at their decimal
  value.  Division by zero in `ℚ` is the Lean convention `x / 0 = 0`;
  theorems that depend on a quotient carry positivity hypotheses.
* The C `uint64_t` RNG state is a `Nat` reduced mod `2 ^ 64` at every step
  where C wraps; the C `int` position and executed quantity are `ℤ`.
* The transcendental kernels of the C code (Box–Muller normal draws,
  `exp`-based temporal decay, `log` returns, the heavy-tail magnitude) act
  on doubles through `log`, `cos`, `exp`, `sqrt` and cannot be reproduced
  exactly over `ℚ`; each is abstracted as an explicit function parameter.
  Every theorem quantifies over these parameters, so it holds in particular
  for the actual machine evaluators.  The purely algebraic and control-flow
  structure of every function is translated from the C source verbatim.
-/

namespace JumpSim

/-! ## RNG: xorshift64 (`agent.c normal_random`, `news.c xorshift64`) -/

/-- One xorshift64 step on a 64-bit state, exactly as in `news.c`
(`x ^= x << 13; x ^= x >> 7; x ^= x << 17`) and in the state-advance part of
`agent.c normal_random`.  All operations are on `uint64_t`, hence mod
`2 ^ 64`. -/
def xorshift64 (x : Nat) : Nat :=
  let x1 := (x ^^^ ((x <<< 13) % 2 ^ 64)) % 2 ^ 64
  let x2 := (x1 ^^^ (x1 >>> 7)) % 2 ^ 64
  (x2 ^^^ ((x2 <<< 17) % 2 ^ 64)) % 2 ^ 64

/-- Translation of `news.c uniform_random`: advance the stream one xorshift64 step and map
the new state to `(x >> 11) * (1.0 / 9007199254740992.0)`.
`9007199254740992 = 2 ^ 53` and the product of an integer `< 2 ^ 53` with
`2 ^ (-53)` is exact in a double, so the value is the exact rational
`(x >>> 11) / 2 ^ 53`.  Returns (value, new state). -/
def uniform_step (s : Nat) : ℚ × Nat :=
  let s2 := xorshift64 s
  (((s2 >>> 11 : Nat) : ℚ) / 9007199254740992, s2)

/-! ## Agent data model (`agent.h struct Agent`) -/

/-- Translation of `agent.h AgentType`. -/
inductive AgentType where
  | retail
  | institution
  | noise
deriving DecidableEq, Repr

/-- Translation of `agent.h struct Agent`.  `neighbors` is the neighbor id array together
with its length (`neighbor_count = neighbors.length`). -/
structure Agent where
  id : Nat
  name : String
  type : AgentType
  belief : ℚ
  belief_update_rate : ℚ
  aggressiveness : ℚ
  trade_size_scale : ℚ
  risk_aversion : ℚ
  liquidity_tolerance : ℚ
  network_influence : ℚ
  neighbors : List Nat
  position : ℤ
  cash : ℚ
  noise_std : ℚ
  rng_state : Nat
  fundamental_anchor : ℚ
  passive_only : Bool
deriving DecidableEq, Repr

/-- Translation of `agent.h position_penalty`: `p / (1 + fabs(p))`. -/
def position_penalty (position : ℤ) : ℚ :=
  let p : ℚ := (position : ℚ)
  p / (1 + |p|)

/-- Translation of `agent.c agent_init`: fills every field from the arguments; belief is
seeded at the market price, position and cash start at zero, neighbors
empty.  The C function performs no validation and cannot fail. -/
def agent_init (id : Nat) (type : AgentType) (name : String)
    (init_price aggressiveness trade_size_scale risk_aversion
     liquidity_tolerance belief_update_rate network_influence
     noise_std fundamental_anchor : ℚ) (rng_seed : Nat) : Agent :=
  { id := id
    name := name
    type := type
    belief := init_price
    belief_update_rate := belief_update_rate
    aggressiveness := aggressiveness
    trade_size_scale := trade_size_scale
    risk_aversion := risk_aversion
    liquidity_tolerance := liquidity_tolerance
    network_influence := network_influence
    neighbors := []
    position := 0
    cash := 0
    noise_std := noise_std
    rng_state := rng_seed
    fundamental_anchor := fundamental_anchor
    passive_only := false }

/-- Translation of `agent.c agent_compute_demand`, value part.  `z` is the standard-normal
draw produced by the `normal_random` call of the agent (Box–Muller over doubles,
abstracted; the stream advance is modelled separately by `xorshift64`).
All other arithmetic is translated line by line: institutional anchoring,
inventory cost, the herding term guarded by `neighbor_count > 0`, the
no-trade band `|raw| < liquidity_tolerance`, and the final scaling. -/
def agent_compute_demand (a : Agent) (market_price global_shock
    avg_neighbor_belief z : ℚ) : ℚ :=
  let signal0 := a.belief - market_price
  let signal := if a.type = AgentType.institution then
      signal0 + (1 / 2) * (a.fundamental_anchor - market_price)
    else signal0
  let inventory_cost := a.risk_aversion * position_penalty a.position
  let herding := if 0 < a.neighbors.length then
      a.network_influence * (avg_neighbor_belief - a.belief)
    else 0
  let noise := a.noise_std * z
  let raw_demand := a.aggressiveness * signal - inventory_cost + herding
      + noise + global_shock
  if |raw_demand| < a.liquidity_tolerance then 0
  else a.trade_size_scale * raw_demand

/-- Translation of `agent.c agent_apply_execution`:
`position += executed_quantity; cash -= executed_quantity * execution_price`. -/
def agent_apply_execution (a : Agent) (executed_quantity : ℤ)
    (execution_price : ℚ) : Agent :=
  { a with
    position := a.position + executed_quantity
    cash := a.cash - (executed_quantity : ℚ) * execution_price }

/-- Translation of `agent.c agent_update_belief`: adaptive-expectations update toward the
observed price (institutions blend in the fundamental anchor), plus a
`0.1 * global_shock` pass-through.  `avg_market_signal` is accepted and
ignored, as in the C source. -/
def agent_update_belief (a : Agent) (observed_price global_shock
    _avg_market_signal : ℚ) : Agent :=
  let target := if a.type = AgentType.institution then
      (7 / 10) * observed_price + (3 / 10) * a.fundamental_anchor
    else observed_price
  let b1 := a.belief + a.belief_update_rate * (target - a.belief)
  { a with belief := b1 + (1 / 10) * global_shock }

/-- Translation of `agent.c agent_apply_shock`: retail overreacts (`1.2`), institutions
dampen (`0.4`), noise agents scale the shock by a normal draw `z` from
their own stream (draw abstracted, stream advance modelled separately). -/
def agent_apply_shock (a : Agent) (shock_strength z : ℚ) : Agent :=
  if a.type = AgentType.retail then
    { a with belief := a.belief + (12 / 10) * shock_strength }
  else if a.type = AgentType.institution then
    { a with belief := a.belief + (4 / 10) * shock_strength }
  else
    { a with belief := a.belief + shock_strength * z,
             rng_state := xorshift64 a.rng_state }

/-! ## Market (`market.h struct Market`, `market.c`) -/

/-- Translation of `market.h struct Market`. -/
structure Market where
  price : ℚ
  last_price : ℚ
  liquidity : ℚ
  impact_coefficient : ℚ
  volatility : ℚ
  volatility_decay : ℚ
  cumulative_demand : ℚ
  cumulative_volume : ℚ
  time : Nat
  max_price_change : ℚ
  trading_halted : Bool
deriving DecidableEq, Repr

/-- Translation of `market.c market_init`: fills every field from the arguments; the C
function performs no validation and cannot fail. -/
def market_init (init_price liquidity impact_coefficient volatility_decay
    max_price_change : ℚ) : Market :=
  { price := init_price
    last_price := init_price
    liquidity := liquidity
    impact_coefficient := impact_coefficient
    volatility := 0
    volatility_decay := volatility_decay
    cumulative_demand := 0
    cumulative_volume := 0
    time := 0
    max_price_change := max_price_change
    trading_halted := false }

/-- Translation of `market.c market_begin_step`: zero the per-step accumulators. -/
def market_begin_step (m : Market) : Market :=
  { m with cumulative_demand := 0, cumulative_volume := 0 }

/-- Translation of `market.c market_add_demand`. -/
def market_add_demand (m : Market) (signed_demand : ℚ) : Market :=
  { m with
    cumulative_demand := m.cumulative_demand + signed_demand
    cumulative_volume := m.cumulative_volume + |signed_demand| }

/-- Translation of `market.c market_clear`: if halted, return the current price with no
mutation.  Otherwise record `last_price`, apply the clamped linear impact
`impact_coefficient * (cumulative_demand / liquidity)`, floor the price at
`1e-6`, advance `time`, and return the new price.  Returns
(returned price, new market state). -/
def market_clear (m : Market) : ℚ × Market :=
  if m.trading_halted then (m.price, m)
  else
    let excess_demand := m.cumulative_demand
    let normalized_flow := excess_demand / m.liquidity
    let raw0 := m.impact_coefficient * normalized_flow
    let raw_price_change :=
      if m.max_price_change < raw0 then m.max_price_change
      else if raw0 < -m.max_price_change then -m.max_price_change
      else raw0
    let p1 := m.price + raw_price_change
    let p2 := if p1 < 1 / 1000000 then 1 / 1000000 else p1
    (p2, { m with last_price := m.price, price := p2, time := m.time + 1 })

/-- Translation of `market.c market_log_return`: `ln(price / last_price)`, or `0` when a
price is non-positive.  `logFn` abstracts the double-precision natural
logarithm. -/
def market_log_return (logFn : ℚ → ℚ) (m : Market) : ℚ :=
  if m.last_price ≤ 0 ∨ m.price ≤ 0 then 0
  else logFn (m.price / m.last_price)

/-- Translation of `market.c market_update_volatility`: EWMA of squared log-returns. -/
def market_update_volatility (logFn : ℚ → ℚ) (m : Market) : Market :=
  let r := market_log_return logFn m
  { m with volatility := m.volatility_decay * m.volatility
      + (1 - m.volatility_decay) * (r * r) }

/-- Translation of `market.c market_halt`. -/
def market_halt (m : Market) : Market := { m with trading_halted := true }

/-- Translation of `market.c market_resume`. -/
def market_resume (m : Market) : Market := { m with trading_halted := false }

/-! ## Information diffusion (`information_flow.c`) -/

/-- Translation of `information_flow.c attention_weight`: retail `1.2`, institution `0.6`,
noise `0.9`. -/
def attention_weight : AgentType → ℚ
  | AgentType.retail => 12 / 10
  | AgentType.institution => 6 / 10
  | AgentType.noise => 9 / 10

/-- One propagation round of `information_propagate` (the body of the
`for (step = 1; step <= MAX_PROPAGATION_STEPS; step++)` loop): every agent
with neighbors averages the current local signal of its neighbors, scales it by
the round decay and its own `network_influence`, and the contributions are
merged into the signal buffer only after all have been computed
(`next_signal` buffer in the C source).  `decay` abstracts
`temporal_decay(step) = exp(-0.8 * step)`. -/
def propagation_round (agents : List Agent) (decay : ℚ)
    (local_signal : List ℚ) : List ℚ :=
  let next_signal := agents.map fun a =>
    if a.neighbors.length = 0 then 0
    else
      let total := (a.neighbors.map fun nid => local_signal.getD nid 0).sum
      let neighbor_avg := total / (a.neighbors.length : ℚ)
      decay * a.network_influence * neighbor_avg
  List.zipWith (fun s t => s + t) local_signal next_signal

/-- Translation of `information_flow.c information_propagate`: early return when
`fabs(global_shock) < 1e-9`; otherwise direct exposure
`BASE_ATTENTION * attention_weight(type) * global_shock` per agent,
`MAX_PROPAGATION_STEPS = 3` buffered propagation rounds, then the belief of each agent receives its accumulated local signal exactly once.  `decayFn`
abstracts `temporal_decay` (an `exp` on doubles); out-of-range neighbor
ids (undefined behavior in C) read signal `0`. -/
def information_propagate (decayFn : Nat → ℚ) (agents : List Agent)
    (global_shock : ℚ) : List Agent :=
  if |global_shock| < 1 / 1000000000 then agents
  else
    let local0 := agents.map fun a =>
      (6 / 10) * attention_weight a.type * global_shock
    let local1 := propagation_round agents (decayFn 1) local0
    let local2 := propagation_round agents (decayFn 2) local1
    let local3 := propagation_round agents (decayFn 3) local2
    List.zipWith (fun a s => { a with belief := a.belief + s }) agents local3

/-! ## News process (`news.c`) -/

/-- Translation of `news.c NewsRegime` plus the module-level `rng_state`, gathered into one
explicit state record (the C source keeps them as two `static` globals).
`regime` is `0` for calm, `1` for stressed. -/
structure NewsState where
  regime : Nat
  p_switch_to_stress : ℚ
  p_switch_to_calm : ℚ
  rng : Nat
deriving DecidableEq, Repr

/-- The initial values of the C globals: regime calm, transition
probabilities `0.002` and `0.01`, default xorshift seed. -/
def news_initial : NewsState :=
  { regime := 0
    p_switch_to_stress := 2 / 1000
    p_switch_to_calm := 1 / 100
    rng := 88172645463325252 }

/-- Translation of `news.c news_seed`: overwrite the stream state with the given seed.
No validation is performed; seed `0` is accepted as-is. -/
def news_seed (st : NewsState) (seed : Nat) : NewsState :=
  { st with rng := seed % 2 ^ 64 }

/-- RNG-state advance of `news.c heavy_tail_shock`: the function draws
three uniforms (`u`, the Box–Muller angle, and the tail divisor), so the
stream steps three times. -/
def heavy_tail_state (s : Nat) : Nat := xorshift64 (xorshift64 (xorshift64 s))

/-- Translation of `news.c news_generate_shock`.  First a regime transition check against
the own probability of the current regime using one uniform draw; then an
arrival check: if a second uniform draw exceeds the regime-dependent
intensity (`0.01` calm, `0.05` stressed) the function returns `0.0`;
otherwise it draws a heavy-tailed magnitude at the regime-dependent scale
(`2.0` calm, `8.0` stressed).  `magFn scale s` abstracts the value of
`heavy_tail_shock(scale)` started from stream state `s` (its Box–Muller
and square-root arithmetic act on doubles); the three-draw stream advance
it causes is `heavy_tail_state`.  Returns (shock value, new state). -/
def news_generate_shock (magFn : ℚ → Nat → ℚ) (st : NewsState) :
    ℚ × NewsState :=
  let u1 := (uniform_step st.rng).1
  let s1 := (uniform_step st.rng).2
  let regime1 :=
    if st.regime = 0 then
      if u1 < st.p_switch_to_stress then 1 else 0
    else
      if u1 < st.p_switch_to_calm then 0 else 1
  let arrival_prob : ℚ := if regime1 = 0 then 1 / 100 else 5 / 100
  let u2 := (uniform_step s1).1
  let s2 := (uniform_step s1).2
  if arrival_prob < u2 then
    (0, { st with regime := regime1, rng := s2 })
  else
    let scale : ℚ := if regime1 = 0 then 2 else 8
    (magFn scale s2, { st with regime := regime1, rng := heavy_tail_state s2 })

/-- Translation of `news.c news_current_regime`. -/
def news_current_regime (st : NewsState) : Nat := st.regime

/-! ## One simulation step and run trace -/

/-- The double-precision transcendental kernels of the C code, abstracted
as explicit function parameters.  `z s` is the value returned by
`normal_random` when the post-advance stream state is `s` (Box–Muller:
`sqrt(-2 ln u1) * cos(2 pi u2)` computed from `s`); `mag scale s` is the
value of `heavy_tail_shock(scale)` started from stream state `s`;
`decay step` is `temporal_decay(step) = exp(-0.8 * step)`; `logFn` is the
natural logarithm.  Every theorem below quantifies over an `Oracles`
value, so it holds in particular for the actual machine evaluators. -/
structure Oracles where
  z : Nat → ℚ
  mag : ℚ → Nat → ℚ
  decay : Nat → ℚ
  logFn : ℚ → ℚ

/-- Translation of `agent.c agent_compute_demand` with its side effect: `normal_random`
advances the stream of the agent one xorshift64 step and the draw is a function
of the new state.  Returns (demand, updated agent). -/
def agent_demand_step (oc : Oracles) (a : Agent) (market_price global_shock
    avg_neighbor_belief : ℚ) : ℚ × Agent :=
  let s2 := xorshift64 a.rng_state
  (agent_compute_demand a market_price global_shock avg_neighbor_belief
    (oc.z s2), { a with rng_state := s2 })

/-- Translation of `agent.c agent_apply_shock` with the noise-trader draw taken from the
own stream of the agent (one advance, draw from the new state). -/
def agent_shock_step (oc : Oracles) (a : Agent) (shock : ℚ) : Agent :=
  agent_apply_shock a shock (oc.z (xorshift64 a.rng_state))

/-- Modelled from the spec: the per-agent neighbor-average belief the
step-loop driver (out of scope, spec section 1) precomputes for
`compute_demand` — the mean belief of the neighbors of the agent, `0` if it has
none (per the `agent.h` documentation of `avg_neighbor_belief`). -/
def neighbor_avg_belief (beliefs : List ℚ) (a : Agent) : ℚ :=
  if a.neighbors.length = 0 then 0
  else (a.neighbors.map fun nid => beliefs.getD nid 0).sum
      / (a.neighbors.length : ℚ)

/-- Full simulation state: agent population, market, news process. -/
structure SimState where
  agents : List Agent
  market : Market
  news : NewsState
deriving Repr

/-- One per-step observation record: (price, log_return, volatility,
shock, regime), as in the per-step log record of the spec. -/
abbrev StepRecord := ℚ × ℚ × ℚ × ℚ × Nat

/-- Modelled from the spec: the step-loop driver (declared out of scope in
spec section 1; `simulation.c` is the divergent simple duplicate noted in
spec section 9).  One step follows the strict ordering of spec section 5:
(1) regime/shock generation, (2) diffusion plus direct shock application,
(3) demand computation for all agents at the pre-clearing price, (4)
aggregation, (5) clearing, (6) execution application at the new price with
the rounded demand as executed quantity, (7) belief update at the new
price, (8) volatility update.  All operations invoked are the source
translations above. -/
def simulation_step (oc : Oracles) (st : SimState) : SimState × StepRecord :=
  let shockNews := news_generate_shock oc.mag st.news
  let shock := shockNews.1
  let news1 := shockNews.2
  let m0 := market_begin_step st.market
  let agents1 := information_propagate oc.decay st.agents shock
  let agents2 := if shock = 0 then agents1
    else agents1.map fun a => agent_shock_step oc a shock
  let beliefs := agents2.map Agent.belief
  let das := agents2.map fun a =>
    agent_demand_step oc a m0.price shock (neighbor_avg_belief beliefs a)
  let m1 := das.foldl (fun m da => market_add_demand m da.1) m0
  let cleared := market_clear m1
  let new_price := cleared.1
  let m2 := cleared.2
  let agents3 := das.map fun da =>
    agent_apply_execution da.2 (round da.1) new_price
  let agents4 := agents3.map fun a =>
    agent_update_belief a new_price shock 0
  let m3 := market_update_volatility oc.logFn m2
  ({ agents := agents4, market := m3, news := news1 },
   (m3.price, market_log_return oc.logFn m3, m3.volatility, shock,
    news1.regime))

/-- Run `n` simulation steps from a state, collecting the per-step
observation records in order. -/
def run_trace (oc : Oracles) : Nat → SimState → List StepRecord
  | 0, _ => []
  | n + 1, st =>
    let step := simulation_step oc st
    step.2 :: run_trace oc n step.1

/-- Per-agent construction parameters (the configuration surface of spec
section 6), including the explicit 64-bit stream seed of the agent and its
neighbor list. -/
structure AgentParams where
  type : AgentType
  name : String
  aggressiveness : ℚ
  trade_size_scale : ℚ
  risk_aversion : ℚ
  liquidity_tolerance : ℚ
  belief_update_rate : ℚ
  network_influence : ℚ
  noise_std : ℚ
  fundamental_anchor : ℚ
  neighbors : List Nat
  seed : Nat
deriving DecidableEq, Repr

/-- Market construction parameters. -/
structure MarketParams where
  init_price : ℚ
  liquidity : ℚ
  impact_coefficient : ℚ
  volatility_decay : ℚ
  max_price_change : ℚ
deriving DecidableEq, Repr

/-- Modelled from the spec: run construction by the out-of-scope driver —
every agent built by `agent_init` from its parameters and explicit seed
(with its neighbor list attached afterwards, as `agent_init` leaves
neighbors empty), the market built by `market_init`, the news stream
seeded by `news_seed`. -/
def build_sim (mp : MarketParams) (aps : List AgentParams)
    (news_stream_seed : Nat) : SimState :=
  { agents := aps.enum.map fun ia =>
      { agent_init ia.1 ia.2.type ia.2.name mp.init_price
          ia.2.aggressiveness ia.2.trade_size_scale ia.2.risk_aversion
          ia.2.liquidity_tolerance ia.2.belief_update_rate
          ia.2.network_influence ia.2.noise_std ia.2.fundamental_anchor
          ia.2.seed with
        neighbors := ia.2.neighbors }
    market := market_init mp.init_price mp.liquidity mp.impact_coefficient
      mp.volatility_decay mp.max_price_change
    news := news_seed news_initial news_stream_seed }

/-! ## Helper lemmas -/

/-- The function `information_propagate` takes its early-return branch for every shock
of magnitude below the `1e-9` threshold, leaving the agent list untouched. -/
theorem information_propagate_below_threshold (decayFn : Nat → ℚ)
    (agents : List Agent) (shock : ℚ) (h : |shock| < 1 / 1000000000) :
    information_propagate decayFn agents shock = agents := by
  unfold information_propagate
  rw [if_pos h]

/-! ## Claim theorems -/

/-- C1: for every agent, executed quantity `q` and execution price `p`,
`agent_apply_execution` changes the state exactly by
`position := position + q` and `cash := cash - q * p`, and no other agent
field changes. -/
theorem C1_apply_execution_accounting (a : Agent) (q : ℤ) (p : ℚ) :
    (agent_apply_execution a q p).position = a.position + q ∧
    (agent_apply_execution a q p).cash = a.cash - (q : ℚ) * p ∧
    (agent_apply_execution a q p).id = a.id ∧
    (agent_apply_execution a q p).name = a.name ∧
    (agent_apply_execution a q p).type = a.type ∧
    (agent_apply_execution a q p).belief = a.belief ∧
    (agent_apply_execution a q p).belief_update_rate = a.belief_update_rate ∧
    (agent_apply_execution a q p).aggressiveness = a.aggressiveness ∧
    (agent_apply_execution a q p).trade_size_scale = a.trade_size_scale ∧
    (agent_apply_execution a q p).risk_aversion = a.risk_aversion ∧
    (agent_apply_execution a q p).liquidity_tolerance =
      a.liquidity_tolerance ∧
    (agent_apply_execution a q p).network_influence = a.network_influence ∧
    (agent_apply_execution a q p).neighbors = a.neighbors ∧
    (agent_apply_execution a q p).noise_std = a.noise_std ∧
    (agent_apply_execution a q p).rng_state = a.rng_state ∧
    (agent_apply_execution a q p).fundamental_anchor =
      a.fundamental_anchor ∧
    (agent_apply_execution a q p).passive_only = a.passive_only := by
  refine ⟨rfl, rfl, rfl, rfl, rfl, rfl, rfl, rfl, rfl, rfl, rfl, rfl, rfl,
    rfl, rfl, rfl, rfl⟩

/-- C2 counterexample: the claim quantifies over every market state, but a
halted clear applies no floor.  The reachable state built by
`market_init 0 ...` followed by `market_halt` (the constructor performs no
validation) clears to price `0 < 1e-6`. -/
theorem C2_counterexample :
    (market_clear (market_halt
      (market_init 0 1200 1 (94 / 100) 5))).2.price < 1 / 1000000 := by
  norm_num [market_clear, market_halt, market_init]

/-- C2 amended: for every market state that is not halted, after
`market_clear` the price is at least the floor `1e-6`, regardless of the
magnitude of `cumulative_demand`; the price is never `0` or negative after
a non-halted clear. -/
theorem C2_price_floor (m : Market) (h : m.trading_halted = false) :
    1 / 1000000 ≤ (market_clear m).2.price := by
  have key : ∀ x : ℚ,
      (1 : ℚ) / 1000000 ≤ if x < 1 / 1000000 then 1 / 1000000 else x := by
    intro x
    split
    · exact le_refl _
    · next hx => exact le_of_not_lt hx
  unfold market_clear
  rw [h]
  simp only [Bool.false_eq_true, if_false]
  exact key _

/-- Witness for C2: the floor bound evaluated at a concrete non-halted
market. -/
theorem C2_price_floor_witness :
    1 / 1000000 ≤
      (market_clear (market_init 100 1200 1 (94 / 100) 5)).2.price :=
  C2_price_floor (market_init 100 1200 1 (94 / 100) 5) rfl

/-- C4: `information_propagate` with `global_shock` exactly `0` is an exact
no-op: the returned agent list is the input list, so the belief of every agent
and every other agent field is unchanged. -/
theorem C4_zero_shock_noop (decayFn : Nat → ℚ) (agents : List Agent) :
    information_propagate decayFn agents 0 = agents :=
  information_propagate_below_threshold decayFn agents 0 (by norm_num)

/-- C5: a halted `market_clear` returns the current price and mutates no
field of the market; `time` changes exactly by `1` on a non-halted clear
and not at all on a halted one, hence never decreases across clears. -/
theorem C5_halt_frame (m : Market) :
    (m.trading_halted = true → market_clear m = (m.price, m)) ∧
    (market_clear m).2.time =
      (if m.trading_halted then m.time else m.time + 1) ∧
    m.time ≤ (market_clear m).2.time := by
  unfold market_clear
  cases h : m.trading_halted <;> simp [h]

/-- Witness for C5: the halted-clear frame condition at a concrete halted
market. -/
theorem C5_halt_frame_witness :
    market_clear (market_halt (market_init 100 1200 1 (94 / 100) 5)) =
      ((market_halt (market_init 100 1200 1 (94 / 100) 5)).price,
        market_halt (market_init 100 1200 1 (94 / 100) 5)) :=
  (C5_halt_frame (market_halt (market_init 100 1200 1 (94 / 100) 5))).1 rfl

/-- C10: `information_propagate` returns immediately, leaving every agent
bit-for-bit unchanged, for every `global_shock` of absolute value below
`1e-9`, not only for zero. -/
theorem C10_subthreshold_noop (decayFn : Nat → ℚ) (agents : List Agent)
    (shock : ℚ) (h : |shock| < 1 / 1000000000) :
    information_propagate decayFn agents shock = agents :=
  information_propagate_below_threshold decayFn agents shock h

/-- Witness for C10: a tiny non-zero shock (`5e-10`) leaves a concrete
one-agent population unchanged. -/
theorem C10_subthreshold_noop_witness :
    information_propagate (fun _ => 1)
      [agent_init 0 AgentType.retail "a" 100 1 1 (1 / 5) (1 / 50) (1 / 20)
        (7 / 10) (3 / 5) 100 1] (1 / 2000000000) =
      [agent_init 0 AgentType.retail "a" 100 1 1 (1 / 5) (1 / 50) (1 / 20)
        (7 / 10) (3 / 5) 100 1] :=
  C10_subthreshold_noop (fun _ => 1) _ (1 / 2000000000)
    (by rw [abs_of_pos (by norm_num : (0 : ℚ) < 1 / 2000000000)]; norm_num)

/-! ## C6: the demand formula -/

/-- The demand formula exactly as claim C6 states it (spec-side definition,
for comparison with the source translation): the herding term
`network_influence * (avg_neighbor_belief - belief)` is part of `raw` for
every agent, unconditionally. -/
def agent_compute_demand_claimform (a : Agent) (market_price global_shock
    avg_neighbor_belief z : ℚ) : ℚ :=
  let signal := (a.belief - market_price) +
    (if a.type = AgentType.institution then
      (1 / 2) * (a.fundamental_anchor - market_price)
     else 0)
  let raw := a.aggressiveness * signal
      - a.risk_aversion * position_penalty a.position
      + a.network_influence * (avg_neighbor_belief - a.belief)
      + a.noise_std * z + global_shock
  if |raw| < a.liquidity_tolerance then 0 else a.trade_size_scale * raw

/-- The demand formula as amended: identical to the formula of the claim except
that the herding term is included only when the agent has at least one
neighbor (agents with no neighbors contribute zero herding), matching the
`neighbor_count > 0` guard in the source. -/
def agent_compute_demand_amendedform (a : Agent) (market_price global_shock
    avg_neighbor_belief z : ℚ) : ℚ :=
  let signal := (a.belief - market_price) +
    (if a.type = AgentType.institution then
      (1 / 2) * (a.fundamental_anchor - market_price)
     else 0)
  let herding := if 0 < a.neighbors.length then
      a.network_influence * (avg_neighbor_belief - a.belief)
    else 0
  let raw := a.aggressiveness * signal
      - a.risk_aversion * position_penalty a.position
      + herding + a.noise_std * z + global_shock
  if |raw| < a.liquidity_tolerance then 0 else a.trade_size_scale * raw

/-- A neighbor-less agent with full network influence, zero aggressiveness,
risk aversion, noise and tolerance, used to separate the demand of the code from
the formula of the claim. -/
def c6_agent : Agent :=
  agent_init 0 AgentType.retail "a" 0 0 1 0 0 0 1 0 0 1

/-- C6 counterexample: for the neighbor-less agent `c6_agent` at market
price `0`, zero shock and noise draw, and `avg_neighbor_belief = 1`, the
code returns demand `0` (the herding term is skipped because
`neighbor_count = 0`) while the unconditional claimed formula yields `1`. -/
theorem C6_counterexample :
    agent_compute_demand c6_agent 0 0 1 0 = 0 ∧
    agent_compute_demand_claimform c6_agent 0 0 1 0 = 1 := by
  constructor <;>
    norm_num [agent_compute_demand, agent_compute_demand_claimform,
      c6_agent, agent_init, position_penalty]

/-- C6 amended: `agent_compute_demand` computes exactly the claimed formula
amended so that the herding term is conditioned on the agent having at
least one neighbor: `raw = aggressiveness * signal
- risk_aversion * penalty(position) + herding + noise + global_shock` with
`signal = belief - market_price` (plus `0.5 * (anchor - market_price)` for
institutions), `herding = network_influence * (avg_neighbor_belief -
belief)` when the agent has neighbors and `0` otherwise, and the result is
`0` when `|raw| < liquidity_tolerance` and `trade_size_scale * raw`
otherwise. -/
theorem C6_demand_formula (a : Agent) (market_price global_shock
    avg_neighbor_belief z : ℚ) :
    agent_compute_demand a market_price global_shock avg_neighbor_belief z =
      agent_compute_demand_amendedform a market_price global_shock
        avg_neighbor_belief z := by
  unfold agent_compute_demand agent_compute_demand_amendedform
  by_cases ht : a.type = AgentType.institution <;> simp [ht]

/-! ## C7: construction-time validation -/

/-- The uniform draw taken from a zero xorshift stream is exactly `0`. -/
theorem uniform_step_zero : (uniform_step 0).1 = 0 := by
  have h0 : xorshift64 0 = 0 := rfl
  unfold uniform_step
  rw [h0]
  simp

/-- C7 counterexample: `market_init` accepts a non-positive initial price
and non-positive liquidity, returning an ordinary market state (the C
function is `void` and has no error path), and `news_seed` accepts the
zero seed, after which the first uniform draw of the stream is `0` (the
xorshift stream never leaves `0`). -/
theorem C7_counterexample :
    (market_init (-5) (-1) 1 (94 / 100) 5).price = -5 ∧
    (market_init (-5) (-1) 1 (94 / 100) 5).liquidity = -1 ∧
    (news_seed news_initial 0).rng = 0 ∧
    (uniform_step (news_seed news_initial 0).rng).1 = 0 := by
  refine ⟨rfl, rfl, rfl, ?_⟩
  have h : (news_seed news_initial 0).rng = 0 := rfl
  rw [h]
  exact uniform_step_zero

/-- C7 amended: no construction-time validation exists.  `market_init`
returns a market carrying exactly the given initial price and liquidity for
all argument values (including non-positive ones), `agent_init` stores any
seed (including zero) unchanged, `news_seed` stores any seed (reduced mod
`2^64`) including zero, and a zero-seeded xorshift stream is stuck at zero
forever, so every uniform draw from it is `0`. -/
theorem C7_no_validation :
    (∀ p L I vd M, (market_init p L I vd M).price = p ∧
      (market_init p L I vd M).liquidity = L) ∧
    (∀ id ty nm ip ag ts ra lt bu ni ns fa sd,
      (agent_init id ty nm ip ag ts ra lt bu ni ns fa sd).rng_state = sd) ∧
    (∀ st s, (news_seed st s).rng = s % 2 ^ 64) ∧
    (∀ n, xorshift64^[n] 0 = 0) ∧
    (uniform_step 0).1 = 0 := by
  refine ⟨fun p L I vd M => ⟨rfl, rfl⟩,
    fun id ty nm ip ag ts ra lt bu ni ns fa sd => rfl,
    fun st s => rfl, ?_, uniform_step_zero⟩
  intro n
  induction n with
  | zero => rfl
  | succ k ih => rw [Function.iterate_succ_apply', ih]; rfl

/-! ## C3: clamp correctness and the worked examples -/

/-- A market whose parameters satisfy the numbers of the claim except that the
price (`1`) sits within one `max_price_change` of the floor: the claimed
exact `-max_price_change` move is cut short by the `1e-6` floor. -/
def c3_market : Market :=
  market_add_demand (market_init 1 1200 1 (94 / 100) 5) (-10000)

/-- C3 counterexample: for `c3_market` the cumulative demand magnitude
(`10000`) exceeds `max_price_change * liquidity / impact_coefficient`
(`6000`), yet the realized price change is neither `+max_price_change` nor
`-max_price_change`: the clamped `-5` move would push the price to `-4`,
so the floor fixes it at `1e-6` and the realized change is `1e-6 - 1`. -/
theorem C3_counterexample :
    c3_market.max_price_change * c3_market.liquidity /
        c3_market.impact_coefficient < |c3_market.cumulative_demand| ∧
    (market_clear c3_market).2.price - c3_market.price ≠
      c3_market.max_price_change ∧
    (market_clear c3_market).2.price - c3_market.price ≠
      -c3_market.max_price_change := by
  refine ⟨?_, ?_, ?_⟩ <;>
    norm_num [c3_market, market_clear, market_add_demand, market_init]

/-- C3 amended: for every non-halted market with positive liquidity and
impact coefficient, nonnegative `max_price_change`, and price at least
`1e-6 + max_price_change` (so the price floor cannot bind), `market_clear`
moves the price by exactly
`impact_coefficient * (cumulative_demand / liquidity)` clamped to
`[-max_price_change, +max_price_change]`; whenever the cumulative demand
exceeds `max_price_change * liquidity / impact_coefficient` (respectively
falls below its negative) the realized change is exactly
`+max_price_change` (respectively `-max_price_change`).  Moreover the two
worked examples hold exactly: with `liquidity = 1200`,
`impact_coefficient = 1`, `max_price_change = 5`, `price = 100`, demand
`600` clears to `100.5` and demand `10000` clears to `105`. -/
theorem C3_clamp (m : Market) (hh : m.trading_halted = false)
    (hL : 0 < m.liquidity) (hI : 0 < m.impact_coefficient)
    (hM : 0 ≤ m.max_price_change)
    (hp : 1 / 1000000 ≤ m.price - m.max_price_change) :
    ((market_clear m).2.price = m.price +
        max (-m.max_price_change) (min m.max_price_change
          (m.impact_coefficient * (m.cumulative_demand / m.liquidity)))) ∧
    (m.max_price_change * m.liquidity / m.impact_coefficient <
        m.cumulative_demand →
      (market_clear m).2.price = m.price + m.max_price_change) ∧
    (m.cumulative_demand <
        -(m.max_price_change * m.liquidity / m.impact_coefficient) →
      (market_clear m).2.price = m.price - m.max_price_change) ∧
    (market_clear (market_add_demand
        (market_init 100 1200 1 (94 / 100) 5) 600)).2.price = 201 / 2 ∧
    (market_clear (market_add_demand
        (market_init 100 1200 1 (94 / 100) 5) 10000)).2.price = 105 := by
  have hMM : -m.max_price_change ≤ m.max_price_change :=
    le_trans (neg_nonpos_of_nonneg hM) hM
  have hmain : (market_clear m).2.price = m.price +
      max (-m.max_price_change) (min m.max_price_change
        (m.impact_coefficient * (m.cumulative_demand / m.liquidity))) := by
    unfold market_clear
    rw [hh]
    simp only [Bool.false_eq_true, if_false]
    split_ifs with h1 h2 h3 h4 h5
    · exact absurd h2 (not_lt.mpr (by linarith))
    · rw [min_eq_left h1.le, max_eq_right hMM]
    · exact absurd h4 (not_lt.mpr (by linarith))
    · rw [min_eq_right (le_trans h3.le hMM), max_eq_left h3.le]
    · have hge : -m.max_price_change ≤
          m.impact_coefficient * (m.cumulative_demand / m.liquidity) :=
        not_lt.mp h3
      exact absurd h5 (not_lt.mpr (by linarith))
    · rw [min_eq_right (not_lt.mp h1), max_eq_right (not_lt.mp h3)]
  have hup : m.max_price_change * m.liquidity / m.impact_coefficient <
      m.cumulative_demand →
      (market_clear m).2.price = m.price + m.max_price_change := by
    intro hcd
    have h1 : m.max_price_change * m.liquidity <
        m.cumulative_demand * m.impact_coefficient :=
      (div_lt_iff₀ hI).mp hcd
    have h2 : m.max_price_change <
        m.impact_coefficient * (m.cumulative_demand / m.liquidity) := by
      rw [mul_div_assoc', lt_div_iff₀ hL]
      linarith [h1]
    rw [hmain, min_eq_left h2.le, max_eq_right hMM]
  have hdown : m.cumulative_demand <
      -(m.max_price_change * m.liquidity / m.impact_coefficient) →
      (market_clear m).2.price = m.price - m.max_price_change := by
    intro hcd
    have hcd2 : m.cumulative_demand <
        -(m.max_price_change * m.liquidity) / m.impact_coefficient := by
      rw [neg_div]
      exact hcd
    have h1 : m.cumulative_demand * m.impact_coefficient <
        -(m.max_price_change * m.liquidity) := (lt_div_iff₀ hI).mp hcd2
    have h2 : m.impact_coefficient * (m.cumulative_demand / m.liquidity) <
        -m.max_price_change := by
      rw [mul_div_assoc', div_lt_iff₀ hL]
      linarith [h1]
    rw [hmain, min_eq_right (le_trans h2.le hMM), max_eq_left h2.le,
      sub_eq_add_neg]
  refine ⟨hmain, hup, hdown, ?_, ?_⟩ <;>
    norm_num [market_clear, market_add_demand, market_init]

/-- Witness for C3: the general clamp statement applied to the concrete
market of the `10000`-demand example yields exactly a `+5` move. -/
theorem C3_clamp_witness :
    (market_clear (market_add_demand
        (market_init 100 1200 1 (94 / 100) 5) 10000)).2.price =
      (market_add_demand (market_init 100 1200 1 (94 / 100) 5)
        10000).price +
      (market_add_demand (market_init 100 1200 1 (94 / 100) 5)
        10000).max_price_change :=
  (C3_clamp (market_add_demand (market_init 100 1200 1 (94 / 100) 5) 10000)
      rfl
      (by norm_num [market_add_demand, market_init])
      (by norm_num [market_add_demand, market_init])
      (by norm_num [market_add_demand, market_init])
      (by norm_num [market_add_demand, market_init])).2.1
    (by norm_num [market_add_demand, market_init])

/-! ## C8: structure of the news generator -/

/-- Definition of `news_generate_shock` as claim C8 states it (spec-side definition, for
comparison with the source translation): the regime is updated first using
exactly one uniform draw checked only against the own probability of the current
switch probability; a shock occurs only if a second uniform draw falls
strictly below the regime-dependent arrival intensity; `0.0` is returned
whenever no shock fires. -/
def news_generate_shock_claimform (magFn : ℚ → Nat → ℚ) (st : NewsState) :
    ℚ × NewsState :=
  let u1 := (uniform_step st.rng).1
  let s1 := (uniform_step st.rng).2
  let regime1 :=
    if st.regime = 0 then
      if u1 < st.p_switch_to_stress then 1 else 0
    else
      if u1 < st.p_switch_to_calm then 0 else 1
  let arrival_prob : ℚ := if regime1 = 0 then 1 / 100 else 5 / 100
  let u2 := (uniform_step s1).1
  let s2 := (uniform_step s1).2
  if u2 < arrival_prob then
    let scale : ℚ := if regime1 = 0 then 2 else 8
    (magFn scale s2, { st with regime := regime1, rng := heavy_tail_state s2 })
  else
    (0, { st with regime := regime1, rng := s2 })

/-- No uniform draw of the stream (a dyadic rational `k / 2 ^ 53`) can land
exactly on either arrival intensity, because neither `2 ^ 53 / 100` nor
`2 ^ 53 / 20` is an integer.  Hence the non-strict arrival test of the source
(`!(u > p)`, that is `u ≤ p`) coincides with the strictly-below test of the
claim on every reachable draw. -/
theorem uniform_ne_intensity (k : Nat) :
    (k : ℚ) / 9007199254740992 ≠ 1 / 100 ∧
    (k : ℚ) / 9007199254740992 ≠ 5 / 100 := by
  constructor <;> intro h <;>
    rw [div_eq_div_iff (by norm_num) (by norm_num)] at h
  · have h2 : ((k * 100 : ℕ) : ℚ) = ((9007199254740992 : ℕ) : ℚ) := by
      push_cast
      linarith
    have h3 : k * 100 = 9007199254740992 := Nat.cast_injective h2
    omega
  · have h2 : ((k * 100 : ℕ) : ℚ) = ((45035996273704960 : ℕ) : ℚ) := by
      push_cast
      linarith
    have h3 : k * 100 = 45035996273704960 := Nat.cast_injective h2
    omega

/-- Flipping an `if` across an impossible boundary: when the scrutinees can
never be equal, testing `A < u` with the branches swapped is the same as
testing `u < A`. -/
theorem ite_flip_of_ne {α : Type} (u A : ℚ) (x y : α) (hne : u ≠ A) :
    (if A < u then x else y) = if u < A then y else x := by
  rcases lt_trichotomy u A with h | h | h
  · rw [if_neg (lt_asymm h), if_pos h]
  · exact absurd h hne
  · rw [if_pos h, if_neg (lt_asymm h)]

/-- C8: `news_generate_shock` computes exactly the description in the claim:
the regime transition uses one uniform draw checked only against the
own switch probability of the current regime (calm to stressed with
`p_switch_to_stress`, stressed to calm with `p_switch_to_calm`); a shock
fires only if a second uniform draw falls below the regime-dependent
arrival intensity (`0.01` calm, `0.05` stressed); and the function returns
exactly `0.0` whenever no shock fires.  The source tests `u2 ≤ intensity`
rather than `u2 < intensity`, but no reachable draw equals either
intensity, so the two coincide. -/
theorem C8_news_structure (magFn : ℚ → Nat → ℚ) (st : NewsState) :
    news_generate_shock magFn st = news_generate_shock_claimform magFn st := by
  unfold news_generate_shock news_generate_shock_claimform
  apply ite_flip_of_ne
  have hform : (uniform_step (uniform_step st.rng).2).1 =
      ((xorshift64 (uniform_step st.rng).2 >>> 11 : Nat) : ℚ) /
        9007199254740992 := rfl
  rw [hform]
  split_ifs <;>
    first
      | exact (uniform_ne_intensity _).1
      | exact (uniform_ne_intensity _).2

/-! ## C9: determinism in the seeds -/

/-- C9: the core is deterministic in its seeds.  For every fixed choice of
the transcendental evaluators (in particular the machine ones), two runs
built from identical market parameters, identical per-agent parameter and
seed lists, and identical news-stream seeds produce identical step-by-step
sequences of `(price, log_return, volatility, shock, regime)`. -/
theorem C9_determinism (oc : Oracles) (mp1 mp2 : MarketParams)
    (aps1 aps2 : List AgentParams) (seed1 seed2 : Nat) (n : Nat)
    (hmp : mp1 = mp2) (haps : aps1 = aps2) (hseed : seed1 = seed2) :
    run_trace oc n (build_sim mp1 aps1 seed1) =
      run_trace oc n (build_sim mp2 aps2 seed2) := by
  subst hmp
  subst haps
  subst hseed
  rfl

/-- Witness for C9: a concrete two-agent configuration run for three steps
against itself. -/
theorem C9_determinism_witness :
    run_trace ⟨fun _ => 0, fun _ _ => 0, fun _ => 1, fun _ => 0⟩ 3
        (build_sim ⟨100, 1200, 1, 94 / 100, 5⟩
          [⟨AgentType.retail, "a", 1, 1, 1 / 5, 1 / 50, 1 / 20, 7 / 10,
             3 / 5, 100, [1], 7⟩,
           ⟨AgentType.institution, "b", 1 / 2, 1, 4 / 5, 1 / 50, 1 / 20,
             1 / 10, 1 / 5, 100, [0], 9⟩] 42) =
      run_trace ⟨fun _ => 0, fun _ _ => 0, fun _ => 1, fun _ => 0⟩ 3
        (build_sim ⟨100, 1200, 1, 94 / 100, 5⟩
          [⟨AgentType.retail, "a", 1, 1, 1 / 5, 1 / 50, 1 / 20, 7 / 10,
             3 / 5, 100, [1], 7⟩,
           ⟨AgentType.institution, "b", 1 / 2, 1, 4 / 5, 1 / 50, 1 / 20,
             1 / 10, 1 / 5, 100, [0], 9⟩] 42) :=
  C9_determinism ⟨fun _ => 0, fun _ _ => 0, fun _ => 1, fun _ => 0⟩
    ⟨100, 1200, 1, 94 / 100, 5⟩ ⟨100, 1200, 1, 94 / 100, 5⟩
    [⟨AgentType.retail, "a", 1, 1, 1 / 5, 1 / 50, 1 / 20, 7 / 10,
       3 / 5, 100, [1], 7⟩,
     ⟨AgentType.institution, "b", 1 / 2, 1, 4 / 5, 1 / 50, 1 / 20,
       1 / 10, 1 / 5, 100, [0], 9⟩]
    [⟨AgentType.retail, "a", 1, 1, 1 / 5, 1 / 50, 1 / 20, 7 / 10,
       3 / 5, 100, [1], 7⟩,
     ⟨AgentType.institution, "b", 1 / 2, 1, 4 / 5, 1 / 50, 1 / 20,
       1 / 10, 1 / 5, 100, [0], 9⟩]
    42 42 3 rfl rfl rfl

end JumpSim
